import Mathlib

/-
Verification of the OpenKS HOI controller
(`src/openks/models/pytorch/hoi_learn.py`, class `VisualRelationTorch`).

The class is shallowly embedded as pure Lean functions over an explicit
controller state.  Calls into external modules (the HOI engine, dataset
builders, torch utilities) are recorded as events in a trace, so that the
claims about call order, call counts and absence of effects can be stated
as properties of the produced traces and of the returned state.
-/

namespace HoiLearn

/-- Does the list start with the given pattern?  Helper for substring
containment. -/
def listStartsWith : List Char → List Char → Bool
  | [], _ => true
  | _ :: _, [] => false
  | a :: as, b :: bs => a == b && listStartsWith as bs

/-- Does the list contain the pattern as a contiguous sub-list? -/
def hasSubList (pat : List Char) : List Char → Bool
  | [] => listStartsWith pat []
  | l@(_ :: rest) => listStartsWith pat l || hasSubList pat rest

/-- Python substring membership `pat in s` on strings. -/
def strContainsSub (s pat : String) : Bool :=
  hasSubList pat.toList s.toList

/-- One named parameter of the torch model, as yielded by
`model.named_parameters()`: its dotted name, its `requires_grad` flag and
its element count (`numel`). -/
structure NamedParam where
  name : String
  requiresGrad : Bool
  numel : Nat
deriving Repr, DecidableEq

/-- The configuration produced by `VisualRelationTorch.parse_args`.  The
fields carry the argparse defaults from `hoi_learn.py`; only fields the
class body reads are modelled.  `distributed` and the process rank are set
externally by `utils.init_distributed_mode`; `distributed` is carried here
as the flag that call leaves on `args`. -/
structure Args where
  lr : Rat := 1 / 10000
  lr_backbone : Rat := 1 / 100000
  batch_size : Nat := 1
  weight_decay : Rat := 1 / 10000
  epochs : Nat := 60
  lr_drop : Nat := 40
  clip_max_norm : Rat := 1 / 10
  frozen_weights : Option String := none
  masks : Bool := false
  hoi : Bool := false
  dataset_file : String := "hico"
  output_dir : String := "logs_hoi"
  device : String := "cuda"
  seed : Int := 42
  start_epoch : Nat := 0
  num_workers : Nat := 4
  subject_category_id : Nat := 0
  distributed : Bool := false
deriving Repr, DecidableEq

/-- Observable calls the controller makes into external modules. -/
inductive Event where
  | initDistributedMode
  | seedTorch (s : Int)
  | seedNumpy (s : Int)
  | seedRandom (s : Int)
  | buildModel
  | buildOptimizer
  | buildScheduler
  | loadModelWeights
  | buildDataset (imageSet : String)
  | samplerSetEpoch (e : Nat)
  | trainOneEpoch (e : Nat)
  | schedStep
  | evaluateHoi
  | saveCheckpoints (e : Nat)
  | saveLogs (e : Nat)
  | printBestMetrics
deriving Repr, DecidableEq

/-- One optimizer parameter group: its parameter list and, when the dict
carries an explicit `"lr"` key, that learning rate. -/
structure ParamGroup where
  params : List NamedParam
  lr : Option Rat
deriving Repr, DecidableEq

/-- The AdamW optimizer state as far as the controller observes it: the
parameter groups, the base learning rate, the weight decay, and how many
optimization steps have been applied. -/
structure Optimizer where
  paramGroups : List ParamGroup
  lr : Rat
  weight_decay : Rat
  stepsTaken : Nat
deriving Repr, DecidableEq

/-- The StepLR scheduler state: its step size and how many times `step()`
has been called. -/
structure StepLR where
  step_size : Nat
  stepCount : Nat
deriving Repr, DecidableEq

/-- Modelled from the spec: `utils.RecorderHOI` (module
`mmd_modules.HOI.util.misc`, not in the repository snapshot) is a
best-metrics tracker; it is updated once per epoch by
`utils.save_checkpoints`.  Only the update count is modelled. -/
structure RecorderHOI where
  updates : Nat
deriving Repr, DecidableEq

/-- Statistics as returned by the external `evaluate_hoi` /
`train_one_epoch` engine calls; their content is opaque to the controller,
so an abstract association list stands for them. -/
structure Stats where
  items : List (String × Rat)
deriving Repr, DecidableEq

/-- The controller state after a successful `VisualRelationTorch.__init__`:
one field per `self.*` assignment in the source. -/
structure Controller where
  name : String
  args : Args
  device : String
  modelParams : List NamedParam
  n_parameters : Nat
  param_dicts : List ParamGroup
  optimizer : Optimizer
  lr_scheduler : StepLR
  output_dir : String
  recorder : Option RecorderHOI
deriving Repr, DecidableEq

/-- The `self.param_dicts` expression from `__init__` (lines 58-64):
first the group of trainable parameters whose name does not contain
`"backbone"` (no explicit lr), then the group of trainable parameters
whose name contains `"backbone"` with lr `args.lr_backbone`. -/
def mkParamDicts (a : Args) (ps : List NamedParam) : List ParamGroup :=
  [ { params := ps.filter (fun p => !(strContainsSub p.name "backbone") && p.requiresGrad),
      lr := none },
    { params := ps.filter (fun p => strContainsSub p.name "backbone" && p.requiresGrad),
      lr := some a.lr_backbone } ]

/-- Outcome of `__init__`: either a constructed controller with the trace
of external calls made, or the assertion failure of line 35 with the trace
of calls made before the failure. -/
inductive InitResult where
  | ok (c : Controller) (trace : List Event)
  | assertionError (msg : String) (trace : List Event)
deriving Repr, DecidableEq

/-- `VisualRelationTorch.__init__` (lines 30-71).  `rank` is the process
rank reported by `utils.get_rank()` (0 on a non-distributed run); `ps` is
the named-parameter list of the model that `build_model(args)` returns
(`model_without_ddp.named_parameters()`). -/
def initController (name : String) (a : Args) (rank : Nat) (ps : List NamedParam) :
    InitResult :=
  let t0 := [Event.initDistributedMode]
  if a.frozen_weights.isSome && !a.masks then
    .assertionError "Frozen training is not suitable for HOI task." t0
  else
    let seed : Int := a.seed + rank
    let t1 := t0 ++ [Event.seedTorch seed, Event.seedNumpy seed, Event.seedRandom seed,
                     Event.buildModel]
    let nParams := (ps.filter (fun p => p.requiresGrad)).foldl (fun acc p => acc + p.numel) 0
    let pd := mkParamDicts a ps
    let opt : Optimizer := { paramGroups := pd, lr := a.lr,
                             weight_decay := a.weight_decay, stepsTaken := 0 }
    let sched : StepLR := { step_size := a.lr_drop, stepCount := 0 }
    let recd : Option RecorderHOI := if a.hoi then some { updates := 0 } else none
    .ok { name := name, args := a, device := a.device, modelParams := ps,
          n_parameters := nParams, param_dicts := pd, optimizer := opt,
          lr_scheduler := sched, output_dir := a.output_dir, recorder := recd }
       (t1 ++ [Event.buildOptimizer, Event.buildScheduler, Event.loadModelWeights])

/-- `VisualRelationTorch.evaluate` (lines 226-235): builds the validation
dataset and loader, runs `evaluate_hoi` binding its result to the local
`test_stats`, assigns no field, and ends without a `return` statement, so
the Python call returns `None`.  `hoiStats` is whatever the external
`evaluate_hoi` returns. -/
def evaluate (c : Controller) (hoiStats : Stats) :
    Controller × List Event × Option Stats :=
  let _test_stats := hoiStats
  (c, [Event.buildDataset "val", Event.evaluateHoi], none)

/-- The body of one iteration of the epoch loop in `train` (lines 256-270):
optionally notify the distributed sampler, run one training pass (the
external engine steps the optimizer), advance the scheduler, evaluate,
save a checkpoint (which updates the recorder when present) and a log. -/
def epochStep (a : Args) (c : Controller) (e : Nat) : Controller × List Event :=
  let pre := if a.distributed then [Event.samplerSetEpoch e] else []
  let c1 := { c with optimizer := { c.optimizer with stepsTaken := c.optimizer.stepsTaken + 1 } }
  let c2 := { c1 with lr_scheduler :=
                { c1.lr_scheduler with stepCount := c1.lr_scheduler.stepCount + 1 } }
  let c3 := { c2 with recorder := c2.recorder.map (fun r => { r with updates := r.updates + 1 }) }
  (c3, pre ++ [Event.trainOneEpoch e, Event.schedStep, Event.evaluateHoi,
               Event.saveCheckpoints e, Event.saveLogs e])

/-- The epoch loop of `train`, iterating `epochStep` over the epoch list
`range(start_epoch, epochs)`. -/
def trainLoop (a : Args) : Controller → List Nat → Controller × List Event
  | c, [] => (c, [])
  | c, e :: rest =>
    let s1 := epochStep a c e
    let s2 := trainLoop a s1.1 rest
    (s2.1, s1.2 ++ s2.2)

/-- `VisualRelationTorch.train` (lines 237-276): builds the train and val
datasets and loaders, runs the epoch loop over
`range(args.start_epoch, args.epochs)`, and afterwards prints the best
metrics exactly when a recorder is attached. -/
def train (c : Controller) : Controller × List Event :=
  let a := c.args
  let pre := [Event.buildDataset "train", Event.buildDataset "val"]
  let s := trainLoop a c (List.range' a.start_epoch (a.epochs - a.start_epoch))
  let post := if s.1.recorder.isSome then [Event.printBestMetrics] else []
  (s.1, pre ++ s.2 ++ post)

/-- Outcome of `run`: normal return (new state, trace, Python return
value) or a raised `ValueError`. -/
inductive RunResult where
  | ok (c : Controller) (trace : List Event) (ret : Option Stats)
  | valueError (msg : String)
deriving Repr, DecidableEq

/-- `VisualRelationTorch.run` (lines 278-284): dispatches on the mode
string; the `if/elif` chain has no `else` branch, so an unmatched mode
falls through and the method returns `None` having done nothing.
`hoiStats` feeds the external `evaluate_hoi` result through to
`evaluate`. -/
def run (c : Controller) (mode : String) (hoiStats : Stats) : RunResult :=
  if mode == "train" then
    let s := train c
    .ok s.1 s.2 none
  else if mode == "eval" then
    let s := evaluate c hoiStats
    .ok s.1 s.2.1 s.2.2
  else if mode == "single" then
    .valueError "UnImplemented mode!"
  else
    .ok c [] none

/-- Is the event one of the three seeding calls (torch, numpy, random)? -/
def isSeedEvent : Event → Bool
  | .seedTorch _ => true
  | .seedNumpy _ => true
  | .seedRandom _ => true
  | _ => false

/-- Default configuration: every argparse default, no overrides. -/
def defaultArgs : Args := {}

/-- A small concrete named-parameter list used for witnesses: two
trainable parameters (one backbone, one not) and two frozen ones. -/
def sampleParams : List NamedParam :=
  [ { name := "backbone.layer1.weight", requiresGrad := true, numel := 4 },
    { name := "transformer.encoder.weight", requiresGrad := true, numel := 3 },
    { name := "backbone.bn1.weight", requiresGrad := false, numel := 2 },
    { name := "bbox_head.bias", requiresGrad := false, numel := 5 } ]

/-- An arbitrary concrete stats value for witnesses. -/
def sampleStats : Stats := { items := [] }

/-- Fallback controller value used only to totalise the extraction of a
controller from an `InitResult` (never reached on the inputs used). -/
def fallbackController : Controller :=
  { name := "", args := {}, device := "", modelParams := [], n_parameters := 0,
    param_dicts := [],
    optimizer := { paramGroups := [], lr := 0, weight_decay := 0, stepsTaken := 0 },
    lr_scheduler := { step_size := 0, stepCount := 0 }, output_dir := "", recorder := none }

/-- Extract the controller from a successful construction. -/
def controllerOf : InitResult → Controller
  | .ok c _ => c
  | .assertionError _ _ => fallbackController

/-- The controller built from the default configuration (rank 0,
`sampleParams` as the model parameters); the default configuration has
`frozen_weights = None`, so construction succeeds. -/
def sampleController : Controller :=
  controllerOf (initController "pytorch-default" defaultArgs 0 sampleParams)

/-- The default configuration with `epochs` overridden to 1. -/
def oneEpochArgs : Args := { epochs := 1 }

/-- A controller built with `epochs = 1` (rank 0, `sampleParams`). -/
def oneEpochController : Controller :=
  controllerOf (initController "pytorch-default" oneEpochArgs 0 sampleParams)

/-- The trace one epoch-loop iteration emits. -/
def epochTrace (a : Args) (e : Nat) : List Event :=
  (if a.distributed then [Event.samplerSetEpoch e] else []) ++
    [Event.trainOneEpoch e, Event.schedStep, Event.evaluateHoi,
     Event.saveCheckpoints e, Event.saveLogs e]

theorem epochStep_trace (a : Args) (c : Controller) (e : Nat) :
    (epochStep a c e).2 = epochTrace a e := rfl

theorem epochStep_recorder (a : Args) (c : Controller) (e : Nat) :
    (epochStep a c e).1.recorder.isSome = c.recorder.isSome := by
  cases h : c.recorder <;> simp [epochStep, h]

theorem trainLoop_trace (a : Args) (es : List Nat) :
    ∀ c : Controller, (trainLoop a c es).2 = es.flatMap (epochTrace a) := by
  induction es with
  | nil => intro c; rfl
  | cons e rest ih =>
    intro c
    simp only [trainLoop, List.flatMap_cons, ih, epochStep_trace]

theorem trainLoop_recorder (a : Args) (es : List Nat) :
    ∀ c : Controller, (trainLoop a c es).1.recorder.isSome = c.recorder.isSome := by
  induction es with
  | nil => intro c; rfl
  | cons e rest ih =>
    intro c
    simp only [trainLoop, ih, epochStep_recorder]

theorem train_trace (c : Controller) :
    (train c).2 = [Event.buildDataset "train", Event.buildDataset "val"] ++
      (List.range' c.args.start_epoch (c.args.epochs - c.args.start_epoch)).flatMap
        (epochTrace c.args) ++
      (if c.recorder.isSome then [Event.printBestMetrics] else []) := by
  simp only [train, trainLoop_trace, trainLoop_recorder]

theorem printBestMetrics_not_in_epochTrace (a : Args) (e : Nat) :
    Event.printBestMetrics ∉ epochTrace a e := by
  simp only [epochTrace]
  cases h : a.distributed <;> simp

/-- C7: for every controller and every stats value the external evaluator
could produce, `run("single")` raises `ValueError("UnImplemented mode!")`;
the raised result carries no trace, so no training-pass, evaluation,
checkpoint or log call happens. -/
theorem run_single_raises_unimplemented (c : Controller) (s : Stats) :
    run c "single" s = RunResult.valueError "UnImplemented mode!" := by
  rfl

/-- C1 counterexample: on the concrete mode string `"test"` (which is
neither `"train"`, `"eval"` nor `"single"`), `run` does not fail: it
returns normally with an empty trace and return value `None`, i.e. it
silently does nothing, contradicting the claim that every mode other than
`"train"`/`"eval"` fails with an unimplemented error. -/
theorem run_unknown_mode_silent_counterexample :
    run sampleController "test" sampleStats = RunResult.ok sampleController [] none := by
  rfl

/-- C1 (amended): `run("train")` dispatches to `train`, `run("eval")`
dispatches to `evaluate`, `run("single")` raises the explicit
`"UnImplemented mode!"` `ValueError`, and every other mode string returns
silently having done nothing (empty trace, `None` return). -/
theorem run_dispatch (c : Controller) (s : Stats) :
    run c "train" s = RunResult.ok (train c).1 (train c).2 none ∧
    run c "eval" s = RunResult.ok (evaluate c s).1 (evaluate c s).2.1 (evaluate c s).2.2 ∧
    run c "single" s = RunResult.valueError "UnImplemented mode!" ∧
    ∀ mode : String, mode ≠ "train" → mode ≠ "eval" → mode ≠ "single" →
      run c mode s = RunResult.ok c [] none := by
  refine ⟨rfl, rfl, rfl, fun mode h1 h2 h3 => ?_⟩
  simp only [run, beq_iff_eq]
  rw [if_neg h1, if_neg h2, if_neg h3]

/-- C1 witness: `run_dispatch` applied at a concrete controller, stats
value and the concrete unknown mode `"other"`. -/
theorem run_dispatch_witness :
    run sampleController "other" sampleStats = RunResult.ok sampleController [] none :=
  (run_dispatch sampleController sampleStats).2.2.2 "other"
    (by decide) (by decide) (by decide)

/-- C2: whenever `frozen_weights` is set to some path and the `masks` flag
is not set, `__init__` fails with the assertion error
"Frozen training is not suitable for HOI task.", and the trace at the
failure contains only the `init_distributed_mode` call: in particular
`build_model` was not called and no optimizer or scheduler was built. -/
theorem initController_frozen_requires_masks
    (name : String) (a : Args) (rank : Nat) (ps : List NamedParam)
    (p : String) (hf : a.frozen_weights = some p) (hm : a.masks = false) :
    initController name a rank ps =
      InitResult.assertionError "Frozen training is not suitable for HOI task."
        [Event.initDistributedMode] := by
  simp only [initController, hf, hm, Option.isSome_some, Bool.not_false, Bool.and_self,
    if_true]

/-- C2 witness: `initController_frozen_requires_masks` applied at the
default configuration with `frozen_weights` overridden to a concrete
path. -/
theorem initController_frozen_requires_masks_witness :
    initController "pytorch-default" { defaultArgs with frozen_weights := some "weights.pth" }
        0 sampleParams =
      InitResult.assertionError "Frozen training is not suitable for HOI task."
        [Event.initDistributedMode] :=
  initController_frozen_requires_masks "pytorch-default"
    { defaultArgs with frozen_weights := some "weights.pth" } 0 sampleParams
    "weights.pth" rfl rfl

/-- C3: the `train` epoch loop runs once per epoch in
`[start_epoch, epochs)`, each iteration emitting — after the
`samplerSetEpoch` notification in distributed mode — one training pass,
one scheduler step, one evaluation pass, one checkpoint write and one log
write, in that order; in particular with `start_epoch = 0`, `epochs = 1`
and non-distributed mode the loop body runs exactly once, so the whole
trace is the two dataset builds followed by exactly that one ordered
block (and the final best-metrics print when a recorder is attached). -/
theorem train_epoch_loop_structure (c : Controller) :
    ((train c).2 = [Event.buildDataset "train", Event.buildDataset "val"] ++
      (List.range' c.args.start_epoch (c.args.epochs - c.args.start_epoch)).flatMap
        (fun e => (if c.args.distributed then [Event.samplerSetEpoch e] else []) ++
          [Event.trainOneEpoch e, Event.schedStep, Event.evaluateHoi,
           Event.saveCheckpoints e, Event.saveLogs e]) ++
      (if c.recorder.isSome then [Event.printBestMetrics] else [])) ∧
    (c.args.start_epoch = 0 → c.args.epochs = 1 → c.args.distributed = false →
      (train c).2 = [Event.buildDataset "train", Event.buildDataset "val",
        Event.trainOneEpoch 0, Event.schedStep, Event.evaluateHoi,
        Event.saveCheckpoints 0, Event.saveLogs 0] ++
        (if c.recorder.isSome then [Event.printBestMetrics] else [])) := by
  constructor
  · exact train_trace c
  · intro h0 h1 hd
    rw [train_trace c, h0, h1]
    have hr : List.range' 0 (1 - 0) = [0] := rfl
    rw [hr]
    simp [epochTrace, hd]

/-- C3 witness: `train_epoch_loop_structure` applied to the concrete
controller built with `epochs = 1`; its recorder is absent (the `hoi`
flag is off by default), so the trace is exactly the seven-event list. -/
theorem train_epoch_loop_structure_witness :
    (train oneEpochController).2 = [Event.buildDataset "train", Event.buildDataset "val",
      Event.trainOneEpoch 0, Event.schedStep, Event.evaluateHoi,
      Event.saveCheckpoints 0, Event.saveLogs 0] := by
  have h := (train_epoch_loop_structure oneEpochController).2 (by decide) (by decide) (by decide)
  rw [h]
  decide

/-- C5: when the frozen-weights precondition passes (so construction
reaches the seeding code), the construction trace seeds torch, numpy and
random, in that order and exactly once each, all with the single value
`args.seed + rank`; for rank 0 that value is exactly `args.seed`. -/
theorem initController_seeding
    (name : String) (a : Args) (rank : Nat) (ps : List NamedParam)
    (h : a.frozen_weights = none ∨ a.masks = true) :
    ∃ c tr, initController name a rank ps = InitResult.ok c tr ∧
      tr.filter isSeedEvent = [Event.seedTorch (a.seed + rank),
        Event.seedNumpy (a.seed + rank), Event.seedRandom (a.seed + rank)] ∧
      (rank = 0 → tr.filter isSeedEvent = [Event.seedTorch a.seed,
        Event.seedNumpy a.seed, Event.seedRandom a.seed]) := by
  have hcond : (a.frozen_weights.isSome && !a.masks) = false := by
    rcases h with h | h <;> simp [h]
  unfold initController
  split
  · rename_i hcond2
    rw [hcond] at hcond2
    exact absurd hcond2 (by decide)
  · refine ⟨_, _, rfl, ?_, ?_⟩
    · simp [isSeedEvent]
    · intro hr
      subst hr
      simp [isSeedEvent]

/-- C5 witness: `initController_seeding` applied at the default
configuration (seed 42) and rank 0. -/
theorem initController_seeding_witness :
    ∃ c tr, initController "pytorch-default" defaultArgs 0 sampleParams =
        InitResult.ok c tr ∧
      tr.filter isSeedEvent = [Event.seedTorch 42, Event.seedNumpy 42, Event.seedRandom 42] := by
  obtain ⟨c, tr, hok, -, hr⟩ :=
    initController_seeding "pytorch-default" defaultArgs 0 sampleParams (Or.inl rfl)
  exact ⟨c, tr, hok, hr rfl⟩

/-- C4: the optimizer is built over exactly two parameter groups, the
second carrying learning rate `lr_backbone` and the first the base rate
(no explicit lr, so AdamW's base `lr` applies); a parameter with
`requires_grad` lands in the backbone group exactly when its name
contains `"backbone"`, in the other group exactly when it does not, and a
parameter without `requires_grad` lands in neither; every group member
comes from the model's parameters and has `requires_grad`; and the
constructed controller's optimizer uses exactly these groups. -/
theorem optimizer_param_partition (a : Args) (ps : List NamedParam) :
    ∃ g0 g1, mkParamDicts a ps = [g0, g1] ∧
      g0.lr = none ∧ g1.lr = some a.lr_backbone ∧
      (∀ p, p ∈ ps → p.requiresGrad = true →
        (strContainsSub p.name "backbone" = true → p ∈ g1.params ∧ p ∉ g0.params) ∧
        (strContainsSub p.name "backbone" = false → p ∈ g0.params ∧ p ∉ g1.params)) ∧
      (∀ p, p ∈ ps → p.requiresGrad = false → p ∉ g0.params ∧ p ∉ g1.params) ∧
      (∀ p, p ∈ g0.params ∨ p ∈ g1.params → p ∈ ps ∧ p.requiresGrad = true) ∧
      (∀ name rank c tr, initController name a rank ps = InitResult.ok c tr →
        c.optimizer.paramGroups = [g0, g1] ∧ c.optimizer.lr = a.lr) := by
  refine ⟨_, _, rfl, rfl, rfl, ?_, ?_, ?_, ?_⟩
  · intro p hp hg
    constructor
    · intro hb
      simp [mkParamDicts, List.mem_filter, hp, hg, hb]
    · intro hb
      simp [mkParamDicts, List.mem_filter, hp, hg, hb]
  · intro p hp hg
    simp [mkParamDicts, List.mem_filter, hp, hg]
  · intro p hp
    rcases hp with hp | hp <;>
      (simp only [List.mem_filter, Bool.and_eq_true] at hp; exact ⟨hp.1, hp.2.2⟩)
  · intro name rank c tr h
    unfold initController at h
    split at h
    · exact absurd h (by simp)
    · rw [InitResult.ok.injEq] at h
      rw [← h.1]
      exact ⟨rfl, rfl⟩

/-- C4 witness: `optimizer_param_partition` at the default configuration
and the sample parameters, instantiated at the concrete trainable
backbone parameter, which lands in the backbone group only. -/
theorem optimizer_param_partition_witness :
    ∃ g0 g1, mkParamDicts defaultArgs sampleParams = [g0, g1] ∧
      ({ name := "backbone.layer1.weight", requiresGrad := true, numel := 4 } : NamedParam)
          ∈ g1.params ∧
      ({ name := "backbone.layer1.weight", requiresGrad := true, numel := 4 } : NamedParam)
          ∉ g0.params := by
  obtain ⟨g0, g1, he, -, -, hmem, -, -, -⟩ :=
    optimizer_param_partition defaultArgs sampleParams
  obtain ⟨h1, h2⟩ :=
    (hmem { name := "backbone.layer1.weight", requiresGrad := true, numel := 4 }
      (by decide) rfl).1 (by decide)
  exact ⟨g0, g1, he, h1, h2⟩

/-- C9: construction is deterministic in the configuration, the rank and
the model parameters: two constructions from the same inputs that both
succeed yield optimizers whose parameter groups have identical parameter
counts (indeed identical groups). -/
theorem initController_partition_deterministic
    (name : String) (a : Args) (rank : Nat) (ps : List NamedParam)
    (c1 c2 : Controller) (t1 t2 : List Event)
    (h1 : initController name a rank ps = InitResult.ok c1 t1)
    (h2 : initController name a rank ps = InitResult.ok c2 t2) :
    c1.optimizer.paramGroups.map (fun g => g.params.length) =
      c2.optimizer.paramGroups.map (fun g => g.params.length) := by
  rw [h1] at h2
  rw [InitResult.ok.injEq] at h2
  rw [h2.1]

/-- C9 witness: `initController_partition_deterministic` applied twice at
the default construction inputs. -/
theorem initController_partition_deterministic_witness :
    sampleController.optimizer.paramGroups.map (fun g => g.params.length) =
      sampleController.optimizer.paramGroups.map (fun g => g.params.length) :=
  initController_partition_deterministic "pytorch-default" defaultArgs 0 sampleParams
    sampleController sampleController
    [Event.initDistributedMode, Event.seedTorch 42, Event.seedNumpy 42, Event.seedRandom 42,
     Event.buildModel, Event.buildOptimizer, Event.buildScheduler, Event.loadModelWeights]
    [Event.initDistributedMode, Event.seedTorch 42, Event.seedNumpy 42, Event.seedRandom 42,
     Event.buildModel, Event.buildOptimizer, Event.buildScheduler, Event.loadModelWeights]
    rfl rfl

/-- C6: `evaluate` returns the controller state unchanged — in particular
the optimizer and scheduler states are untouched — and its trace contains
no scheduler step and no training pass; consequently `run("eval")`
returns with the controller unchanged. -/
theorem evaluate_preserves_optimizer_scheduler (c : Controller) (s : Stats) :
    (evaluate c s).1 = c ∧
    (evaluate c s).1.optimizer = c.optimizer ∧
    (evaluate c s).1.lr_scheduler = c.lr_scheduler ∧
    Event.schedStep ∉ (evaluate c s).2.1 ∧
    (∀ e, Event.trainOneEpoch e ∉ (evaluate c s).2.1) ∧
    run c "eval" s = RunResult.ok c (evaluate c s).2.1 (evaluate c s).2.2 := by
  refine ⟨rfl, rfl, rfl, ?_, ?_, rfl⟩
  · simp [evaluate]
  · intro e
    simp [evaluate]

/-- C6 witness: `evaluate_preserves_optimizer_scheduler` at the concrete
default controller and stats value. -/
theorem evaluate_preserves_optimizer_scheduler_witness :
    Event.schedStep ∉ (evaluate sampleController sampleStats).2.1 :=
  (evaluate_preserves_optimizer_scheduler sampleController sampleStats).2.2.2.1

/-- C8: after construction the recorder is present exactly when the `hoi`
flag is set; `train`, `evaluate` and every normal return of `run` leave
the recorder's presence unchanged; and `train`'s trace contains the
best-metrics print exactly when the recorder is present. -/
theorem recorder_presence_invariant (c : Controller) (s : Stats) :
    (∀ name a rank ps c0 tr, initController name a rank ps = InitResult.ok c0 tr →
        c0.recorder.isSome = a.hoi) ∧
    (train c).1.recorder.isSome = c.recorder.isSome ∧
    (evaluate c s).1.recorder = c.recorder ∧
    (∀ mode c1 t r, run c mode s = RunResult.ok c1 t r →
        c1.recorder.isSome = c.recorder.isSome) ∧
    (Event.printBestMetrics ∈ (train c).2 ↔ c.recorder.isSome = true) := by
  have htrain : (train c).1.recorder.isSome = c.recorder.isSome := by
    simp only [train]
    exact trainLoop_recorder c.args _ c
  refine ⟨?_, htrain, rfl, ?_, ?_⟩
  · intro name a rank ps c0 tr h
    unfold initController at h
    split at h
    · exact absurd h (by simp)
    · rw [InitResult.ok.injEq] at h
      rw [← h.1]
      cases ha : a.hoi <;> simp [ha]
  · intro mode c1 t r h
    unfold run at h
    split_ifs at h with h1 h2 h3 <;> rw [RunResult.ok.injEq] at h <;> rw [← h.1]
    · exact htrain
    · rfl
  · rw [train_trace]
    constructor
    · intro h
      rcases List.mem_append.mp h with h | h
      · rcases List.mem_append.mp h with h | h
        · simp at h
        · obtain ⟨e, -, he⟩ := List.mem_flatMap.mp h
          exact absurd he (printBestMetrics_not_in_epochTrace _ _)
      · by_cases hr : c.recorder.isSome = true
        · exact hr
        · simp [hr] at h
    · intro hr
      refine List.mem_append.mpr (Or.inr ?_)
      simp [hr]

/-- C8 witness: the first conjunct of `recorder_presence_invariant`
applied at the concrete default construction: the default `hoi` flag is
off and the recorder is absent. -/
theorem recorder_presence_invariant_witness :
    sampleController.recorder.isSome = defaultArgs.hoi :=
  (recorder_presence_invariant sampleController sampleStats).1
    "pytorch-default" defaultArgs 0 sampleParams sampleController
    [Event.initDistributedMode, Event.seedTorch 42, Event.seedNumpy 42, Event.seedRandom 42,
     Event.buildModel, Event.buildOptimizer, Event.buildScheduler, Event.loadModelWeights]
    rfl

/-- C10: `evaluate` always returns `None` — the statistics from
`evaluate_hoi` are discarded — its trace contains no log write, and the
value a caller receives from `run("eval")` is `None`. -/
theorem evaluate_returns_none (c : Controller) (s : Stats) :
    (evaluate c s).2.2 = none ∧
    (∀ e, Event.saveLogs e ∉ (evaluate c s).2.1) ∧
    (∀ c1 t r, run c "eval" s = RunResult.ok c1 t r → r = none) := by
  refine ⟨rfl, ?_, ?_⟩
  · intro e
    simp [evaluate]
  · intro c1 t r h
    have h2 : RunResult.ok (evaluate c s).1 (evaluate c s).2.1 (evaluate c s).2.2 =
        RunResult.ok c1 t r := h
    rw [RunResult.ok.injEq] at h2
    rw [← h2.2.2]
    rfl

/-- C10 witness: `evaluate_returns_none` at the concrete default
controller, including the no-log-write conjunct at epoch 0. -/
theorem evaluate_returns_none_witness :
    (evaluate sampleController sampleStats).2.2 = none ∧
    Event.saveLogs 0 ∉ (evaluate sampleController sampleStats).2.1 :=
  ⟨(evaluate_returns_none sampleController sampleStats).1,
   (evaluate_returns_none sampleController sampleStats).2.1 0⟩

end HoiLearn
